import Mathlib

/-!
# Verification of the xel-studio news pipeline orchestration

Shallow embedding of the provider-fallback news pipeline
(`scripts/run_news_cycle.py`, `scripts/cleanup_news.py`,
`scripts/gemini_image_gen.py`, `scripts/generate_news.py`) and proofs of the
specified orchestration properties: bounded-capacity eviction with history
archiving, TTL purge of the history ledger, the image-generation fallback
cascade, search-tier escalation, text-generation retry policy, URL
normalization and title-similarity dedup.

Modelling conventions:
* Timestamps are rationals (days).  The code stores ISO-8601 UTC strings and
  compares them lexicographically, which agrees with chronological order for
  the fixed format the code writes.
* Byte strings are `List Nat`; only emptiness and length are ever inspected.
* External capabilities (document store, HTTP providers, LLM backends,
  Cloudinary) are oracles passed in explicitly; everything the repository's
  own code does with their answers is embedded faithfully.
-/

namespace XelStudio

/-- An Article Record in the primary store (`news` collection).  Fields are the
ones the cleanup code reads: `title`, `sourceUrls` (absent fields read as the
defaults `""` / `[]` via `data.get`), and the `date` used by the
`order_by("date")` query. -/
structure Article where
  title : String
  sourceUrls : List String
  date : ℚ
deriving DecidableEq

/-- A History Entry (`news_history` collection): `title`, `sourceUrls`,
`createdAt` timestamp, and the `archivedFrom` origin tag written by the
cleanup archiver. -/
structure HistoryEntry where
  title : String
  sourceUrls : List String
  createdAt : ℚ
  archivedFrom : String
deriving DecidableEq

/-- `MIN_ARTICLES_TO_KEEP` in `run_news_cycle.cleanup_old_news`. -/
def MIN_ARTICLES_TO_KEEP : Nat := 30

/-- `MIN_ARTICLES` in `cleanup_news.cleanup`. -/
def MIN_ARTICLES : Nat := 50

/-- `HISTORY_TTL_DAYS` in both cleanup scripts. -/
def HISTORY_TTL_DAYS : ℚ := 10

/-- Python truthiness test `if source_urls or title:` guarding the history
archive in the cleanup loop. -/
def shouldArchive (a : Article) : Bool :=
  !a.sourceUrls.isEmpty || !(a.title == "")

/-- The history entry written by the cleanup archiver for a deleted article
(`db.collection(HISTORY_COLLECTION).add({...})`, origin tag "cleanup"). -/
def archiveEntry (now : ℚ) (a : Article) : HistoryEntry :=
  { title := a.title, sourceUrls := a.sourceUrls, createdAt := now,
    archivedFrom := "cleanup" }

/-- Part 1 of `cleanup_old_news` / `cleanup`: the eviction step.

`allNews` is the answer of the document-store query
`order_by("date", ASCENDING)` — oldest first.  If the total exceeds
`minKeep`, the first `total - minKeep` snapshots are deleted; each deleted
article with a truthy title or URL list is first archived to `news_history`.
Returns `(deleted, retained, archivedEntries)`. -/
def evictExcess (minKeep : Nat) (now : ℚ) (allNews : List Article) :
    List Article × List Article × List HistoryEntry :=
  let total := allNews.length
  if total ≤ minKeep then
    ([], allNews, [])
  else
    let excess := total - minKeep
    let toDelete := allNews.take excess
    let archived := (toDelete.filter shouldArchive).map (archiveEntry now)
    (toDelete, allNews.drop excess, archived)

/-- Part 2 of `cleanup_old_news` / `cleanup`: the TTL purge.

The code computes `cutoff = now - timedelta(days=ttlDays)` and deletes every
history document matching `where("createdAt", "<", cutoff)`; the loop counts
the deletions.  Returns `(keptEntries, countDeleted)`. -/
def purgeOlderThan (ttlDays now : ℚ) (history : List HistoryEntry) :
    List HistoryEntry × Nat :=
  let cutoff := now - ttlDays
  let old := history.filter (fun e => decide (e.createdAt < cutoff))
  let kept := history.filter (fun e => !decide (e.createdAt < cutoff))
  (kept, old.length)

/-- C1: with the store listed oldest-first (the `order_by date ascending`
query contract), the evictor deletes nothing when the count is at most
`min_keep`, and otherwise deletes exactly `count - min_keep` records, the
oldest ones: every deleted record's timestamp is at most every retained
record's timestamp, exactly `min_keep` records are retained, and together
they are the original store. -/
theorem evictExcess_deletes_oldest_excess (minKeep : Nat) (now : ℚ)
    (allNews : List Article)
    (hs : allNews.Sorted (fun a b => a.date ≤ b.date)) :
    (allNews.length ≤ minKeep → (evictExcess minKeep now allNews).1 = []) ∧
    (minKeep < allNews.length →
      (evictExcess minKeep now allNews).1.length = allNews.length - minKeep ∧
      (evictExcess minKeep now allNews).2.1.length = minKeep ∧
      (evictExcess minKeep now allNews).1 ++ (evictExcess minKeep now allNews).2.1
        = allNews ∧
      ∀ d ∈ (evictExcess minKeep now allNews).1,
        ∀ r ∈ (evictExcess minKeep now allNews).2.1, d.date ≤ r.date) := by
  unfold evictExcess
  by_cases h : allNews.length ≤ minKeep
  · simp [h]
  · push_neg at h
    refine ⟨fun hle => absurd hle (by omega), fun _ => ?_⟩
    simp only [if_neg (by omega : ¬ allNews.length ≤ minKeep)]
    refine ⟨?_, ?_, List.take_append_drop _ _, ?_⟩
    · simp only [List.length_take]; omega
    · simp only [List.length_drop]; omega
    · intro d hd r hr
      exact hs.rel_of_mem_take_of_mem_drop hd hr

/-- Witness for C1: a concrete sorted 4-record store with `min_keep = 2`
evicts exactly the 2 oldest records. -/
theorem evictExcess_deletes_oldest_excess_witness :
    (2 < ([⟨("a"), [], 1⟩, ⟨("b"), [], 2⟩, ⟨("c"), [], 3⟩, ⟨("d"), [], 4⟩] :
        List Article).length ∧
      (evictExcess 2 9 [⟨("a"), [], 1⟩, ⟨("b"), [], 2⟩, ⟨("c"), [], 3⟩,
          ⟨("d"), [], 4⟩]).1.length =
        ([⟨("a"), [], 1⟩, ⟨("b"), [], 2⟩, ⟨("c"), [], 3⟩, ⟨("d"), [], 4⟩] :
          List Article).length - 2) := by
  have h := evictExcess_deletes_oldest_excess 2 9
    [⟨("a"), [], 1⟩, ⟨("b"), [], 2⟩, ⟨("c"), [], 3⟩, ⟨("d"), [], 4⟩]
    (by decide)
  exact ⟨by decide, (h.2 (by decide)).1⟩

/-- C2 (amended): every record deleted by the evictor that has a non-empty
source-URL list or a non-empty title is archived before deletion — the
archive output contains an entry carrying exactly that record's title and
source URLs, with origin tag "cleanup". -/
theorem evict_archives_deleted (minKeep : Nat) (now : ℚ)
    (allNews : List Article) (a : Article)
    (ha : a ∈ (evictExcess minKeep now allNews).1)
    (hmeta : a.sourceUrls ≠ [] ∨ a.title ≠ "") :
    archiveEntry now a ∈ (evictExcess minKeep now allNews).2.2 ∧
    (archiveEntry now a).title = a.title ∧
    (archiveEntry now a).sourceUrls = a.sourceUrls ∧
    (archiveEntry now a).archivedFrom = "cleanup" := by
  refine ⟨?_, rfl, rfl, rfl⟩
  by_cases h : allNews.length ≤ minKeep
  · simp [evictExcess, h] at ha
  · simp only [evictExcess, if_neg h] at ha ⊢
    refine List.mem_map_of_mem _ (List.mem_filter.mpr ⟨ha, ?_⟩)
    rcases hmeta with h1 | h2
    · simp [shouldArchive, List.isEmpty_iff, h1]
    · simp [shouldArchive, h2]

/-- Witness for the amended C2: in a 2-record store with `min_keep = 1` the
evicted oldest record (non-empty title and URLs) is archived with origin tag
"cleanup". -/
theorem evict_archives_deleted_witness :
    archiveEntry 5 ⟨("x"), [("u")], 1⟩ ∈
      (evictExcess 1 5 [⟨("x"), [("u")], 1⟩, ⟨("y"), [], 2⟩]).2.2 ∧
    (archiveEntry 5 ⟨("x"), [("u")], 1⟩).title = ("x") ∧
    (archiveEntry 5 ⟨("x"), [("u")], 1⟩).sourceUrls = [("u")] ∧
    (archiveEntry 5 ⟨("x"), [("u")], 1⟩).archivedFrom = "cleanup" :=
  evict_archives_deleted 1 5 [⟨("x"), [("u")], 1⟩, ⟨("y"), [], 2⟩]
    ⟨("x"), [("u")], 1⟩ (by decide) (by decide)

/-- An article record with empty title and no source URLs.  The records
`run_news_cycle.generate_news` actually persists carry no `sourceUrls` field
at all (they store `source_link`), so `data.get("sourceUrls", [])` yields
`[]` for them at cleanup time. -/
def emptyMetaArticle : Article := { title := "", sourceUrls := [], date := 0 }

/-- A 31-record store, oldest record `emptyMetaArticle`, listed oldest-first. -/
def storeWithEmptyOldest : List Article :=
  emptyMetaArticle ::
    (List.range MIN_ARTICLES_TO_KEEP).map
      (fun i => { title := ("t"), sourceUrls := [("u")], date := (i : ℚ) + 1 })

/-- C2 counterexample: evicting from a 31-record store (min_keep = 30) whose
oldest record has an empty title and an empty source-URL list deletes that
record but creates no history entry at all (the `if source_urls or title:`
guard skips the archive), so the deleted record's title and URLs are not
present in any subsequent History Store query. -/
theorem evict_archives_counterexample :
    (evictExcess MIN_ARTICLES_TO_KEEP 100 storeWithEmptyOldest).1
        = [emptyMetaArticle] ∧
    (evictExcess MIN_ARTICLES_TO_KEEP 100 storeWithEmptyOldest).2.2 = [] := by
  constructor <;> rfl

/-- C3: the TTL purge keeps exactly the history entries whose creation
timestamp is at least `now - ttl_days` — kept unchanged, in order, as a
sublist of the ledger — and the count it reports is exactly the number of
entries whose creation timestamp predates `now - ttl_days`; deleted and kept
counts partition the ledger. -/
theorem purgeOlderThan_exact (ttlDays now : ℚ) (history : List HistoryEntry) :
    (∀ e, e ∈ (purgeOlderThan ttlDays now history).1 ↔
        e ∈ history ∧ now - ttlDays ≤ e.createdAt) ∧
    (purgeOlderThan ttlDays now history).1.Sublist history ∧
    (purgeOlderThan ttlDays now history).2
        = history.countP (fun e => decide (e.createdAt < now - ttlDays)) ∧
    (purgeOlderThan ttlDays now history).2
        + (purgeOlderThan ttlDays now history).1.length = history.length := by
  refine ⟨?_, List.filter_sublist _, ?_, ?_⟩
  · intro e
    simp [purgeOlderThan, List.mem_filter, not_lt]
  · simp [purgeOlderThan, List.countP_eq_length_filter]
  · simp only [purgeOlderThan]
    rw [← List.countP_eq_length_filter, ← List.countP_eq_length_filter]
    have h := (List.length_eq_countP_add_countP
      (fun e => decide (e.createdAt < now - ttlDays)) history).symm
    have h2 : (fun e : HistoryEntry => !decide (e.createdAt < now - ttlDays))
        = (fun e : HistoryEntry =>
            decide ¬(decide (e.createdAt < now - ttlDays) = true)) := by
      funext e
      by_cases hc : e.createdAt < now - ttlDays <;> simp [hc]
    rw [h2]
    exact h

/-- Witness for C3: the spec's aging example — ttl 10 days, entries aged 1,
9, 10.5 and 20 days; exactly the 10.5- and 20-day entries are deleted. -/
theorem purgeOlderThan_exact_witness :
    (purgeOlderThan 10 100 [⟨("a"), [], 99, ("")⟩, ⟨("b"), [], 91, ("")⟩,
        ⟨("c"), [], 89.5, ("")⟩, ⟨("d"), [], 80, ("")⟩]).2 = 2 ∧
    (purgeOlderThan 10 100 [⟨("a"), [], 99, ("")⟩, ⟨("b"), [], 91, ("")⟩,
        ⟨("c"), [], 89.5, ("")⟩, ⟨("d"), [], 80, ("")⟩]).1
      = [⟨("a"), [], 99, ("")⟩, ⟨("b"), [], 91, ("")⟩] := by
  have h := purgeOlderThan_exact 10 100 [⟨("a"), [], 99, ("")⟩,
    ⟨("b"), [], 91, ("")⟩, ⟨("c"), [], 89.5, ("")⟩, ⟨("d"), [], 80, ("")⟩]
  constructor
  · rw [h.2.2.1]
    norm_num [List.countP_cons]
  · norm_num [purgeOlderThan, List.filter_cons]

/-! ## Kernel-computable models of the Python string methods used

Core `String.splitOn`/`map`/`trim`/`split` are defined by well-founded
recursion and do not evaluate inside `decide`/`rfl` proofs, so the embedding
uses these structurally-recursive list-based equivalents. -/

/-- Python `str.split(sep)` for a one-character separator: empty pieces are
kept. -/
def splitOnCharList (sep : Char) : List Char → List (List Char)
  | [] => [[]]
  | c :: rest =>
    if c == sep then [] :: splitOnCharList sep rest
    else
      match splitOnCharList sep rest with
      | [] => [[c]]
      | g :: gs => (c :: g) :: gs

/-- Fuel-driven splitter on a multi-character separator (left-to-right,
non-overlapping, as Python `str.split(sep)`). -/
def splitOnListAux (sep : List Char) :
    Nat → List Char → List Char → List (List Char)
  | 0, cs, acc => [acc.reverse ++ cs]
  | _ + 1, [], acc => [acc.reverse]
  | fuel + 1, c :: rest, acc =>
    if sep.isPrefixOf (c :: rest) then
      acc.reverse :: splitOnListAux sep fuel (List.drop (sep.length - 1) rest) []
    else splitOnListAux sep fuel rest (c :: acc)

/-- Python `str.split(sep)` for a non-empty separator string. -/
def splitOnStr (sep s : String) : List String :=
  (splitOnListAux sep.data (s.data.length + 1) s.data []).map String.mk

/-- Split on a character-class predicate, keeping empty pieces. -/
def splitOnPred (p : Char → Bool) : List Char → List (List Char)
  | [] => [[]]
  | c :: rest =>
    if p c then [] :: splitOnPred p rest
    else
      match splitOnPred p rest with
      | [] => [[c]]
      | g :: gs => (c :: g) :: gs

/-- Python `str.split()` with no argument: split on whitespace runs,
dropping empty fields. -/
def splitWhitespace (s : String) : List String :=
  ((splitOnPred Char.isWhitespace s.data).filter (fun g => !g.isEmpty)).map
    String.mk

/-- Python `str.lower()` (over the ASCII range the pipeline compares). -/
def lowerStr (s : String) : String := String.mk (s.data.map Char.toLower)

/-- Python `str.strip()`. -/
def stripStr (s : String) : String :=
  String.mk
    (((s.data.dropWhile Char.isWhitespace).reverse.dropWhile
        Char.isWhitespace).reverse)

/-- Python `str.startswith`. -/
def startsWithStr (s start : String) : Bool := start.data.isPrefixOf s.data

/-- Python `str.endswith`. -/
def endsWithStr (s suffixStr : String) : Bool := suffixStr.data.isSuffixOf s.data

/-! ## Image generation cascade (`gemini_image_gen.py`, `run_news_cycle.py`) -/

/-- `PLACEHOLDER_IMAGE_URL` in `run_news_cycle.py`. -/
def PLACEHOLDER_IMAGE_URL : String :=
  "https://placehold.co/1024x576/1a1a2e/e2e8f0?text=XeL+AI+News&font=roboto"

/-- The g4f model priority list in `gemini_image_gen._try_g4f`. -/
def G4F_MODELS : List String := [("flux-dev"), ("flux")]

/-- External outcomes for one image-generation-and-upload run.  Network and
SDK calls are oracles; everything the repository code does with their
answers is embedded below. -/
structure ImageEnv where
  /-- Whether `from g4f.client import Client` succeeds
  (`_try_g4f` returns `None` on ImportError). -/
  g4fImportOk : Bool
  /-- Outcome of `_poll_g4f_image` for (prompt, model, attempt):
  downloaded image bytes, or `none` for any of its failure paths
  (empty response, no URL, download failure, or the `> 1000` byte
  plausibility check failing). -/
  pollG4f : String → String → Nat → Option (List Nat)
  /-- `requests.get` of the Pollinations URL for (prompt, attempt):
  `(status_code, content)` or a raised exception. -/
  pollinationsGet : String → Nat → Except Unit (Nat × List Nat)
  /-- `cloudinary.uploader.upload(bytes, public_id=articleId, ...)`:
  the `secure_url` field (possibly empty) or a raised exception. -/
  cloudinaryUpload : List Nat → String → Except Unit String
  /-- `requests.get(PLACEHOLDER_IMAGE_URL).content` or a raised exception. -/
  placeholderFetch : Except Unit (List Nat)

/-- `gemini_image_gen._try_g4f`: for each model in priority order, up to 3
polling attempts; the first successful attempt's bytes win; `None` if g4f is
unavailable or every attempt of every model fails. -/
def try_g4f (env : ImageEnv) (prompt : String) : Option (List Nat) :=
  if env.g4fImportOk then
    G4F_MODELS.findSome? (fun m => ([1, 2, 3].findSome? (env.pollG4f prompt m)))
  else none

/-- `gemini_image_gen._try_pollinations`: up to 2 attempts; an attempt
succeeds when the HTTP status is 200 and the body exceeds 5000 bytes. -/
def try_pollinations (env : ImageEnv) (prompt : String) : Option (List Nat) :=
  [1, 2].findSome? (fun attempt =>
    match env.pollinationsGet prompt attempt with
    | Except.error _ => none
    | Except.ok (status, content) =>
      if status = 200 then
        if content.length > 5000 then some content else none
      else none)

/-- `gemini_image_gen.generate_image_gemini`: g4f first, Pollinations as
backup, `None` when both are exhausted.  (`run_news_cycle._call_g4f_image`
forwards this result, mapping any exception to `None`.) -/
def generate_image_gemini (env : ImageEnv) (prompt : String) :
    Option (List Nat) :=
  match try_g4f env prompt with
  | some result => some result
  | none => try_pollinations env prompt

/-- Characters kept by the prompt sanitization regex
`re.sub(r"[^\w\s,.\-!?']", "", prompt)`. -/
def isPromptChar (c : Char) : Bool :=
  c.isAlphanum || c == '_' || c.isWhitespace ||
    c == ',' || c == '.' || c == '-' || c == '!' || c == '?' || c == '\''

/-- The prompt sanitization in `generate_and_upload_image`: strip characters
outside the kept class, collapse whitespace runs and trim, and truncate at
300 characters dropping the trailing partial word (`rsplit(" ", 1)[0]`). -/
def sanitizePrompt (prompt : String) : String :=
  let kept := prompt.data.filter isPromptChar
  let collapsed := String.intercalate (" ") (splitWhitespace (String.mk kept))
  if collapsed.length > 300 then
    let t := collapsed.data.take 300
    let parts := splitOnCharList ' ' t
    if parts.length ≤ 1 then String.mk t
    else String.intercalate (" ") (parts.dropLast.map String.mk)
  else collapsed

/-- `run_news_cycle._upload_bytes_to_cloudinary`: upload and return the
secure URL, or `None` when the upload raises or yields an empty URL. -/
def uploadBytesToCloudinary (env : ImageEnv) (imageBytes : List Nat)
    (articleId : String) : Option String :=
  match env.cloudinaryUpload imageBytes articleId with
  | Except.error _ => none
  | Except.ok url => if url = "" then none else some url

/-- `run_news_cycle._upload_placeholder_to_cloudinary`: fetch the
placeholder, upload it when plausible (non-empty and > 500 bytes), and fall
back to the static `PLACEHOLDER_IMAGE_URL` on any failure. -/
def uploadPlaceholderToCloudinary (env : ImageEnv) (articleId : String) :
    String :=
  match env.placeholderFetch with
  | Except.error _ => PLACEHOLDER_IMAGE_URL
  | Except.ok placeholderBytes =>
    if !placeholderBytes.isEmpty && placeholderBytes.length > 500 then
      match env.cloudinaryUpload placeholderBytes articleId with
      | Except.error _ => PLACEHOLDER_IMAGE_URL
      | Except.ok url => if url = "" then PLACEHOLDER_IMAGE_URL else url
    else PLACEHOLDER_IMAGE_URL

/-- `run_news_cycle.generate_and_upload_image`: sanitize and enhance the
prompt, try the g4f cascade and upload its bytes, otherwise run the
placeholder upload path. -/
def generate_and_upload_image (env : ImageEnv) (prompt articleId : String) :
    String :=
  let enhanced := sanitizePrompt prompt ++
    (", photorealistic, highly detailed, sharp focus, professional lighting, cinematic, 8k")
  match generate_image_gemini env enhanced with
  | some g4fBytes =>
    if !g4fBytes.isEmpty then
      match uploadBytesToCloudinary env g4fBytes articleId with
      | some url => url
      | none => uploadPlaceholderToCloudinary env articleId
    else uploadPlaceholderToCloudinary env articleId
  | none => uploadPlaceholderToCloudinary env articleId

theorem placeholder_static_url_ne_empty : PLACEHOLDER_IMAGE_URL ≠ "" := by
  decide

theorem uploadPlaceholder_ne_empty (env : ImageEnv) (articleId : String) :
    uploadPlaceholderToCloudinary env articleId ≠ "" := by
  unfold uploadPlaceholderToCloudinary
  split
  · exact placeholder_static_url_ne_empty
  · split
    · split
      · exact placeholder_static_url_ne_empty
      · split
        · exact placeholder_static_url_ne_empty
        · rename_i hne
          exact hne
    · exact placeholder_static_url_ne_empty

theorem uploadBytes_some_ne_empty (env : ImageEnv) (b : List Nat)
    (articleId url : String)
    (h : uploadBytesToCloudinary env b articleId = some url) : url ≠ "" := by
  unfold uploadBytesToCloudinary at h
  split at h
  · exact absurd h (by simp)
  · split at h
    · exact absurd h (by simp)
    · rename_i hne
      injection h with h'
      subst h'
      exact hne

/-- C4: for every prompt, article id and every outcome of the external
providers — including all g4f models failing all 3 attempts, Pollinations
failing both attempts, the placeholder fetch failing and every Cloudinary
upload failing — the image-generation-and-upload step returns a non-empty
image reference (a successful upload URL or the static placeholder URL). -/
theorem image_pipeline_always_nonempty (env : ImageEnv)
    (prompt articleId : String) :
    generate_and_upload_image env prompt articleId ≠ "" := by
  simp only [generate_and_upload_image]
  split
  · split
    · split
      · rename_i heq
        exact uploadBytes_some_ne_empty env _ articleId _ heq
      · exact uploadPlaceholder_ne_empty env articleId
    · exact uploadPlaceholder_ne_empty env articleId
  · exact uploadPlaceholder_ne_empty env articleId

/-! ## URL normalization (`run_news_cycle.normalize_url`) -/

/-- Split a string at the first occurrence of `sep`; `none` when absent. -/
def splitFirst (s sep : String) : Option (String × String) :=
  match splitOnStr sep s with
  | [] => none
  | [_] => none
  | x :: rest => some (x, String.intercalate sep rest)

/-- The components of `urllib.parse.urlparse` that `normalize_url` reads. -/
structure ParsedUrl where
  scheme : String
  netloc : String
  path : String
  query : String
deriving DecidableEq

/-- Model of `urllib.parse.urlparse`, restricted to the URL shapes the
pipeline manipulates: an optional "scheme://" marker, then the netloc up to
the first of '/', '?' or '#', then the path up to '?' or '#', then the query
up to '#'.  Without a "://" marker everything is path/query (no netloc), as
in urlparse. -/
def urlparseModel (url : String) : ParsedUrl :=
  match splitFirst url ("://") with
  | some (s, r) =>
    let cs := r.toList
    let netloc := cs.takeWhile (fun c => c != '/' && c != '?' && c != '#')
    let afterNetloc := cs.dropWhile (fun c => c != '/' && c != '?' && c != '#')
    let path := afterNetloc.takeWhile (fun c => c != '?' && c != '#')
    let afterPath := afterNetloc.dropWhile (fun c => c != '?' && c != '#')
    let query :=
      match afterPath with
      | '?' :: qs => qs.takeWhile (fun c => c != '#')
      | _ => []
    { scheme := lowerStr s, netloc := String.mk netloc,
      path := String.mk path, query := String.mk query }
  | none =>
    let cs := url.toList
    let path := cs.takeWhile (fun c => c != '?' && c != '#')
    let afterPath := cs.dropWhile (fun c => c != '?' && c != '#')
    let query :=
      match afterPath with
      | '?' :: qs => qs.takeWhile (fun c => c != '#')
      | _ => []
    { scheme := "", netloc := "", path := String.mk path,
      query := String.mk query }

/-- Model of `parsed.hostname` (read as `""` when absent, matching the
code's `if parsed.hostname else ""` guard): the netloc after the last '@'
and before the port ':' delimiter, lower-cased. -/
def hostnameOf (netloc : String) : String :=
  let afterUser := (splitOnCharList '@' netloc.data).getLastD netloc.data
  lowerStr (String.mk ((splitOnCharList ':' afterUser).headD []))

/-- Insert one (key, value) pair into a parse_qs-style grouped assoc list:
append to the key's value list when present, else add the key at the end
(dict insertion order = first occurrence). -/
def insertQsPair (acc : List (String × List String)) (k v : String) :
    List (String × List String) :=
  match acc with
  | [] => [(k, [v])]
  | (k', vs) :: rest =>
    if k' = k then (k', vs ++ [v]) :: rest
    else (k', vs) :: insertQsPair rest k v

/-- Model of `urllib.parse.parse_qs`, restricted to queries without
percent-escapes or '+' (on which unquoting is the identity): split on '&',
drop fields without '=' or with an empty value (keep_blank_values defaults
to False), group values by key in first-occurrence order. -/
def parse_qsModel (query : String) : List (String × List String) :=
  (splitOnCharList '&' query.data).foldl (fun acc field =>
    let k := field.takeWhile (fun c => c != '=')
    match field.dropWhile (fun c => c != '=') with
    | [] => acc
    | _ :: v =>
      if v.isEmpty then acc else insertQsPair acc (String.mk k) (String.mk v))
    []

/-- Model of `urllib.parse.urlencode(params, doseq=True)` under the same
no-escaping restriction: "k=v" fields, each key's values in order, joined
by '&'. -/
def urlencodeModel (params : List (String × List String)) : String :=
  String.intercalate ("&")
    ((params.map (fun kv => kv.2.map (fun v => kv.1 ++ ("=") ++ v))).flatten)

/-- Python `str.rstrip("/")`: remove every trailing '/'. -/
def rstripSlashes (s : String) : String :=
  String.mk ((s.toList.reverse.dropWhile (fun c => c == '/')).reverse)

/-- Model of `urllib.parse.urlunparse(("https", hostname, path, "", query,
""))` as used by `normalize_url`. -/
def urlunparseModel (scheme netloc path query : String) : String :=
  scheme ++ ("://") ++ netloc ++ path ++
    (if query = "" then "" else ("?") ++ query)

/-- The fixed tracking-parameter denylist in `normalize_url`. -/
def TRACKING_PARAMS : List String :=
  [("utm_source"), ("utm_medium"), ("utm_campaign"), ("utm_content"),
   ("utm_term"), ("ref"), ("source")]

/-- `run_news_cycle.normalize_url`: lower-cased hostname, path with trailing
slashes stripped, tracking params removed from the query, re-encoded query,
scheme forced to https.  (In the modelled fragment the parse is total, so
the `except: return url.lower().rstrip("/")` branch is never taken.) -/
def normalize_url (url : String) : String :=
  let parsed := urlparseModel url
  let hostname := hostnameOf parsed.netloc
  let pathname := rstripSlashes parsed.path
  let params := (parse_qsModel parsed.query).filter
    (fun kv => !(TRACKING_PARAMS.contains kv.1))
  let cleanQuery := if params.isEmpty then "" else urlencodeModel params
  urlunparseModel ("https") hostname pathname cleanQuery

/-- C8: two URLs that agree on hostname, on path up to trailing slashes, and
on their query once the fixed tracking-parameter denylist
(utm_source, utm_medium, utm_campaign, utm_content, utm_term, ref, source)
is removed — in particular URLs differing only by scheme, by a trailing
slash on the path, or by denylisted tracking parameters — normalize to the
same canonical https string. -/
theorem normalize_url_canonical (u1 u2 : String)
    (hhost : hostnameOf (urlparseModel u1).netloc
        = hostnameOf (urlparseModel u2).netloc)
    (hpath : rstripSlashes (urlparseModel u1).path
        = rstripSlashes (urlparseModel u2).path)
    (hquery : (parse_qsModel (urlparseModel u1).query).filter
          (fun kv => !(TRACKING_PARAMS.contains kv.1))
        = (parse_qsModel (urlparseModel u2).query).filter
          (fun kv => !(TRACKING_PARAMS.contains kv.1))) :
    normalize_url u1 = normalize_url u2 := by
  simp only [normalize_url, hhost, hpath, hquery]

/-- Witness for C8: a concrete pair differing by scheme, host case, a
trailing slash and tracking parameters normalizes to one canonical string. -/
theorem normalize_url_canonical_witness :
    normalize_url ("http://Example.com/news/story/?utm_source=x&id=7")
      = normalize_url ("https://example.com/news/story?id=7&utm_medium=m") ∧
    normalize_url ("http://Example.com/news/story/?utm_source=x&id=7")
      = ("https://example.com/news/story?id=7") := by
  refine ⟨normalize_url_canonical _ _ ?_ ?_ ?_, ?_⟩ <;> decide

/-! ## Search orchestration and dedup filter (`run_news_cycle.py`) -/

/-- A (transient) search result as mapped from the Tavily response:
`{title, description, url}`. -/
structure SearchResult where
  title : String
  description : String
  url : String
deriving DecidableEq

/-- `run_news_cycle.filter_by_url_history`: drop results whose normalized
URL is in the known-URL history; also report how many were dropped. -/
def filter_by_url_history (results : List SearchResult)
    (knownUrls : List String) : List SearchResult × Nat :=
  let fresh := results.filter
    (fun r => !(knownUrls.contains (normalize_url r.url)))
  (fresh, results.length - fresh.length)

/-- The combined text length computed in `generate_news` step 4:
`sum(len(f"{title} {description}"))` over the fresh results. -/
def totalText (results : List SearchResult) : Nat :=
  (results.map (fun r => r.title.length + 1 + r.description.length)).sum

/-- The Tier-2 trigger `if not scraped_data or total_text < 50:` evaluated
after the dedup filter. -/
def tier2Triggered (tier1Results : List SearchResult)
    (knownUrls : List String) : Bool :=
  let fresh := (filter_by_url_history tier1Results knownUrls).1
  fresh.isEmpty || decide (totalText fresh < 50)

/-- Which branch of the escalation ladder supplies the article sources. -/
inductive SearchOutcome where
  | primary (data : List SearchResult)
  | fallback3day (data : List SearchResult)
  | fallback7day (data : List SearchResult)
  | fatal
deriving DecidableEq

/-- The escalation ladder of `generate_news` step 4: use the primary tier's
fresh results unless the Tier-2 trigger fires; then a random fallback query
(`fallbackResults` are its search results), then the fixed widest query
(`widerResults`), each passed through the dedup filter; raise
`RuntimeError` (`fatal`) only when both fallbacks yield nothing fresh. -/
def searchEscalation (tier1Results : List SearchResult)
    (knownUrls : List String)
    (fallbackResults widerResults : List SearchResult) : SearchOutcome :=
  let fresh := (filter_by_url_history tier1Results knownUrls).1
  if fresh.isEmpty || decide (totalText fresh < 50) then
    let fallbackFresh := (filter_by_url_history fallbackResults knownUrls).1
    if !fallbackFresh.isEmpty then SearchOutcome.fallback3day fallbackFresh
    else
      let widerFresh := (filter_by_url_history widerResults knownUrls).1
      if !widerFresh.isEmpty then SearchOutcome.fallback7day widerFresh
      else SearchOutcome.fatal
  else SearchOutcome.primary fresh

theorem fresh_nil_iff (results : List SearchResult) (known : List String) :
    (filter_by_url_history results known).1 = [] ↔
      ∀ r ∈ results, normalize_url r.url ∈ known := by
  simp [filter_by_url_history, List.filter_eq_nil_iff, List.contains,
    List.elem_iff]

/-- C5: the Tier-2 fallback is triggered exactly when Tier 1 yields zero
results, or all Tier-1 results are history duplicates, or the combined text
of the fresh results is under the 50-character floor; and when all Tier-1
results are duplicates the orchestrator proceeds to the Tier-2 fallback
query rather than failing: it never publishes from the primary tier, and it
aborts only if both fallback tiers also yield nothing fresh. -/
theorem tier2_trigger_exact (tier1Results : List SearchResult)
    (knownUrls : List String)
    (fallbackResults widerResults : List SearchResult) :
    (tier2Triggered tier1Results knownUrls = true ↔
      (tier1Results = [] ∨
        (∀ r ∈ tier1Results, normalize_url r.url ∈ knownUrls) ∨
        totalText (filter_by_url_history tier1Results knownUrls).1 < 50)) ∧
    ((∀ r ∈ tier1Results, normalize_url r.url ∈ knownUrls) →
      (∀ d, searchEscalation tier1Results knownUrls fallbackResults
          widerResults ≠ SearchOutcome.primary d) ∧
      (searchEscalation tier1Results knownUrls fallbackResults widerResults
            = SearchOutcome.fatal →
        (filter_by_url_history fallbackResults knownUrls).1 = [] ∧
        (filter_by_url_history widerResults knownUrls).1 = [])) := by
  constructor
  · simp only [tier2Triggered, Bool.or_eq_true, decide_eq_true_eq,
      List.isEmpty_iff]
    constructor
    · rintro (hnil | hlt)
      · exact Or.inr (Or.inl ((fresh_nil_iff _ _).mp hnil))
      · exact Or.inr (Or.inr hlt)
    · rintro (rfl | hdup | hlt)
      · exact Or.inl (by simp [filter_by_url_history])
      · exact Or.inl ((fresh_nil_iff _ _).mpr hdup)
      · exact Or.inr hlt
  · intro hdup
    have hnil : (filter_by_url_history tier1Results knownUrls).1 = [] :=
      (fresh_nil_iff _ _).mpr hdup
    have htrig : ((filter_by_url_history tier1Results knownUrls).1.isEmpty
        || decide (totalText (filter_by_url_history tier1Results
          knownUrls).1 < 50)) = true := by
      simp [hnil]
    constructor
    · intro d
      simp only [searchEscalation, htrig, if_true]
      split
      · intro h
        exact SearchOutcome.noConfusion h
      · split
        · intro h
          exact SearchOutcome.noConfusion h
        · intro h
          exact SearchOutcome.noConfusion h
    · intro hfatal
      simp only [searchEscalation, htrig, if_true] at hfatal
      constructor
      · by_cases hf :
          (filter_by_url_history fallbackResults knownUrls).1.isEmpty
        · exact List.isEmpty_iff.mp hf
        · simp [hf] at hfatal
      · by_cases hf :
          (filter_by_url_history fallbackResults knownUrls).1.isEmpty
        · by_cases hw :
            (filter_by_url_history widerResults knownUrls).1.isEmpty
          · exact List.isEmpty_iff.mp hw
          · simp [hf, hw] at hfatal
        · simp [hf] at hfatal

/-- Witness for C5: one Tier-1 result whose normalized URL is already in
history triggers the fallback, which is used instead of failing. -/
theorem tier2_trigger_exact_witness :
    (∀ d, searchEscalation [⟨("t"), ("d"), ("http://a.com/x")⟩]
        [("https://a.com/x")] [⟨("t2"), ("d2"), ("https://b.com/y")⟩] []
        ≠ SearchOutcome.primary d) ∧
    searchEscalation [⟨("t"), ("d"), ("http://a.com/x")⟩]
        [("https://a.com/x")] [⟨("t2"), ("d2"), ("https://b.com/y")⟩] []
      = SearchOutcome.fallback3day [⟨("t2"), ("d2"), ("https://b.com/y")⟩] := by
  have h := (tier2_trigger_exact [⟨("t"), ("d"), ("http://a.com/x")⟩]
    [("https://a.com/x")] [⟨("t2"), ("d2"), ("https://b.com/y")⟩] []).2
    (by decide)
  exact ⟨h.1, by decide⟩

/-! ## Text generation: parsing and the backend loop (`run_news_cycle.py`) -/

/-- Skip JSON whitespace. -/
def skipJsonWs (cs : List Char) : List Char :=
  cs.dropWhile (fun c => c == ' ' || c == '\n' || c == '\t' || c == '\r')

/-- A JSON value as produced by `json.loads`.  Numbers keep their lexeme:
only their non-string Python type matters downstream (`.strip()` raises on
any of them), so no float semantics is needed.  Object fields keep every
parsed member in source order; dict semantics (last duplicate key wins) is
applied by `dictGet` below. -/
inductive JsonVal where
  | jnull
  | jbool (b : Bool)
  | jnum (lexeme : String)
  | jstr (s : String)
  | jarr (elems : List JsonVal)
  | jobj (fields : List (String × JsonVal))

/-- The value of a hex digit, if any. -/
def hexVal (c : Char) : Option Nat :=
  let n := c.toNat
  if 48 ≤ n ∧ n ≤ 57 then some (n - 48)
  else if 97 ≤ n ∧ n ≤ 102 then some (n - 87)
  else if 65 ≤ n ∧ n ≤ 70 then some (n - 55)
  else none

/-- Parse exactly four hex digits into a code unit. -/
def parseHex4 : List Char → Option (Nat × List Char)
  | h1 :: h2 :: h3 :: h4 :: rest =>
    match hexVal h1, hexVal h2, hexVal h3, hexVal h4 with
    | some a, some b, some c, some d =>
      some (((a * 16 + b) * 16 + c) * 16 + d, rest)
    | _, _, _, _ => none
  | _ => none

/-- Parse the body of a JSON string literal (after the opening quote),
decoding the escape sequences; raw control characters and invalid escapes
are rejected, as `json.loads` (strict mode) rejects them.  Surrogate `u`
escape pairs are combined; a `u` escape encoding a lone surrogate — which
Python would keep as a surrogate code point no Lean `Char` can carry — is
decoded best-effort and is outside the model's fidelity. -/
def parseJsonStringBody : Nat → List Char → List Char →
    Option (String × List Char)
  | 0, _, _ => none
  | _ + 1, _, [] => none
  | fuel + 1, acc, c :: rest =>
    if c == '"' then some (String.mk acc.reverse, rest)
    else if c == '\\' then
      match rest with
      | [] => none
      | e :: rest2 =>
        if e == '"' then parseJsonStringBody fuel ('"' :: acc) rest2
        else if e == '\\' then parseJsonStringBody fuel ('\\' :: acc) rest2
        else if e == '/' then parseJsonStringBody fuel ('/' :: acc) rest2
        else if e == 'b' then parseJsonStringBody fuel (Char.ofNat 8 :: acc) rest2
        else if e == 'f' then parseJsonStringBody fuel (Char.ofNat 12 :: acc) rest2
        else if e == 'n' then parseJsonStringBody fuel ('\n' :: acc) rest2
        else if e == 'r' then parseJsonStringBody fuel (Char.ofNat 13 :: acc) rest2
        else if e == 't' then parseJsonStringBody fuel ('\t' :: acc) rest2
        else if e == 'u' then
          match parseHex4 rest2 with
          | none => none
          | some (u1, rest3) =>
            if 0xD800 ≤ u1 ∧ u1 ≤ 0xDBFF then
              match rest3 with
              | '\\' :: 'u' :: rest4 =>
                match parseHex4 rest4 with
                | some (u2, rest5) =>
                  if 0xDC00 ≤ u2 ∧ u2 ≤ 0xDFFF then
                    parseJsonStringBody fuel
                      (Char.ofNat (0x10000 + (u1 - 0xD800) * 0x400
                          + (u2 - 0xDC00)) :: acc) rest5
                  else parseJsonStringBody fuel (Char.ofNat u1 :: acc) rest3
                | none => parseJsonStringBody fuel (Char.ofNat u1 :: acc) rest3
              | _ => parseJsonStringBody fuel (Char.ofNat u1 :: acc) rest3
            else parseJsonStringBody fuel (Char.ofNat u1 :: acc) rest3
        else none
    else if c.toNat < 32 then none
    else parseJsonStringBody fuel (c :: acc) rest

/-- Parse an optional JSON fraction part (a dot then digits). -/
def parseJsonFrac (cs : List Char) : Option (List Char × List Char) :=
  match cs with
  | '.' :: rest =>
    let digs := rest.takeWhile Char.isDigit
    if digs.isEmpty then none
    else some ('.' :: digs, rest.dropWhile Char.isDigit)
  | _ => some ([], cs)

/-- Parse an optional JSON exponent part (e or E, optional sign, digits). -/
def parseJsonExp (cs : List Char) : Option (List Char × List Char) :=
  match cs with
  | [] => some ([], [])
  | e :: rest =>
    if e == 'e' || e == 'E' then
      let (sign, rest2) :=
        match rest with
        | '+' :: r => ((['+'] : List Char), r)
        | '-' :: r => ((['-'] : List Char), r)
        | _ => (([] : List Char), rest)
      let digs := rest2.takeWhile Char.isDigit
      if digs.isEmpty then none
      else some (e :: (sign ++ digs), rest2.dropWhile Char.isDigit)
    else some ([], e :: rest)

/-- Parse a JSON number lexeme: optional minus, `0` or a nonzero-led digit
run, optional fraction, optional exponent. -/
def parseJsonNumber (cs : List Char) : Option (String × List Char) :=
  let (neg, cs1) :=
    match cs with
    | '-' :: rest => ((['-'] : List Char), rest)
    | _ => (([] : List Char), cs)
  match cs1 with
  | [] => none
  | d :: _ =>
    if !d.isDigit then none
    else
      let intPart := cs1.takeWhile Char.isDigit
      let cs2 := cs1.dropWhile Char.isDigit
      if d == '0' && intPart.length > 1 then none
      else
        match parseJsonFrac cs2 with
        | none => none
        | some (fracPart, cs3) =>
          match parseJsonExp cs3 with
          | none => none
          | some (expPart, cs4) =>
            some (String.mk (neg ++ intPart ++ fracPart ++ expPart), cs4)

/-- Fuel-driven recursive-descent JSON parser.  `mode` 0 parses one value;
`mode` 1 parses object members (key, colon, value, then a comma and more
members or the closing brace) and yields the `jobj`; `mode` 2 parses array
elements and yields the `jarr`.  A single structurally-recursive function,
so that it evaluates under kernel reduction. -/
def parseJsonCore : Nat → Nat → List Char → Option (JsonVal × List Char)
  | 0, _, _ => none
  | fuel + 1, mode, cs =>
    if mode == 1 then
      match skipJsonWs cs with
      | '"' :: rest =>
        match parseJsonStringBody (rest.length + 1) [] rest with
        | none => none
        | some (k, rest1) =>
          match skipJsonWs rest1 with
          | ':' :: rest2 =>
            match parseJsonCore fuel 0 rest2 with
            | none => none
            | some (v, rest3) =>
              match skipJsonWs rest3 with
              | ',' :: rest4 =>
                match parseJsonCore fuel 1 rest4 with
                | some (JsonVal.jobj fields, rest5) =>
                  some (JsonVal.jobj ((k, v) :: fields), rest5)
                | _ => none
              | '}' :: rest4 => some (JsonVal.jobj [(k, v)], rest4)
              | _ => none
          | _ => none
      | _ => none
    else if mode == 2 then
      match parseJsonCore fuel 0 cs with
      | none => none
      | some (v, rest) =>
        match skipJsonWs rest with
        | ',' :: rest2 =>
          match parseJsonCore fuel 2 rest2 with
          | some (JsonVal.jarr elems, rest3) =>
            some (JsonVal.jarr (v :: elems), rest3)
          | _ => none
        | ']' :: rest2 => some (JsonVal.jarr [v], rest2)
        | _ => none
    else
      match skipJsonWs cs with
      | [] => none
      | c :: rest =>
        if c == '{' then
          match skipJsonWs rest with
          | '}' :: rest2 => some (JsonVal.jobj [], rest2)
          | _ => parseJsonCore fuel 1 rest
        else if c == '[' then
          match skipJsonWs rest with
          | ']' :: rest2 => some (JsonVal.jarr [], rest2)
          | _ => parseJsonCore fuel 2 rest
        else if c == '"' then
          match parseJsonStringBody (rest.length + 1) [] rest with
          | some (s, rest2) => some (JsonVal.jstr s, rest2)
          | none => none
        else if (("true").data).isPrefixOf (c :: rest) then
          some (JsonVal.jbool true, (c :: rest).drop 4)
        else if (("false").data).isPrefixOf (c :: rest) then
          some (JsonVal.jbool false, (c :: rest).drop 5)
        else if (("null").data).isPrefixOf (c :: rest) then
          some (JsonVal.jnull, (c :: rest).drop 4)
        else if (("NaN").data).isPrefixOf (c :: rest) then
          some (JsonVal.jnum ("NaN"), (c :: rest).drop 3)
        else if (("Infinity").data).isPrefixOf (c :: rest) then
          some (JsonVal.jnum ("Infinity"), (c :: rest).drop 8)
        else if (("-Infinity").data).isPrefixOf (c :: rest) then
          some (JsonVal.jnum ("-Infinity"), (c :: rest).drop 9)
        else
          match parseJsonNumber (c :: rest) with
          | some (lexeme, rest2) => some (JsonVal.jnum lexeme, rest2)
          | none => none

/-- Model of `json.loads`: parse one full JSON value — objects, arrays,
strings with escapes, numbers, the `true`/`false`/`null` literals and the
`NaN`/`Infinity`/`-Infinity` constants CPython accepts — requiring only
trailing whitespace after it; `none` is a `JSONDecodeError`. -/
def jsonLoads (s : String) : Option JsonVal :=
  match parseJsonCore (2 * s.data.length + 2) 0 s.data with
  | none => none
  | some (v, rest) => if (skipJsonWs rest).isEmpty then some v else none

/-- Dict lookup `parsed[k]` for an object built by `json.loads`: with
duplicate keys in the JSON source, the last occurrence wins. -/
def dictGet (fields : List (String × JsonVal)) (k : String) : Option JsonVal :=
  List.lookup k fields.reverse

/-- `k in parsed` for a dict: key membership. -/
def dictHasKey (fields : List (String × JsonVal)) (k : String) : Bool :=
  fields.any (fun kv => kv.1 == k)

/-- Python `needle in hay` on strings: substring containment. -/
def containsSubstr (hay needle : List Char) : Bool :=
  match hay with
  | [] => needle.isEmpty
  | c :: rest => needle.isPrefixOf (c :: rest) || containsSubstr rest needle

/-- Python `k in parsed` applied to a `json.loads` result: key test on
dicts, substring test on strings, element equality on lists (a string
compares equal only to an equal string element); `TypeError` — an uncaught
exception — on numbers, booleans and `None`. -/
def pyContains (parsed : JsonVal) (k : String) : Except Unit Bool :=
  match parsed with
  | JsonVal.jobj fields => Except.ok (dictHasKey fields k)
  | JsonVal.jstr s => Except.ok (containsSubstr s.data k.data)
  | JsonVal.jarr elems =>
    Except.ok (elems.any (fun v =>
      match v with
      | JsonVal.jstr s => s == k
      | _ => false))
  | _ => Except.error ()

/-- `parsed.get(k, "")` followed by string-method use, reached only after a
true `k in parsed` test: `.get` raises `AttributeError` on the str/list
tops that can reach it, and `.strip()` raises `AttributeError` on any
non-string field value; both are uncaught. -/
def pyGetStrField (parsed : JsonVal) (k : String) : Except Unit String :=
  match parsed with
  | JsonVal.jobj fields =>
    match dictGet fields k with
    | some (JsonVal.jstr s) => Except.ok s
    | some _ => Except.error ()
    | none => Except.ok ""
  | _ => Except.error ()

/-- The code-fence stripping in `parse_article_response`:
`re.sub(r"^```(?:json)?\s*\n?", "", clean)` followed by
`re.sub(r"\n?```\s*$", "", clean)`, applied only when the text starts with a
fence marker. -/
def stripCodeFence (clean : String) : String :=
  if startsWithStr clean ("```") then
    let afterMarker :=
      if startsWithStr clean ("```json") then clean.data.drop 7
      else clean.data.drop 3
    let body := afterMarker.dropWhile Char.isWhitespace
    let revNoWs := body.reverse.dropWhile Char.isWhitespace
    let withoutEnd :=
      if (("```").data.reverse).isPrefixOf revNoWs then
        match revNoWs.drop 3 with
        | '\n' :: r => r
        | r => r
      else body.reverse
    String.mk withoutEnd.reverse
  else clean

/-- The category labels `parse_article_response` accepts. -/
def VALID_CATEGORIES : List String :=
  [("ai-tech"), ("disability"), ("health"), ("world"), ("general")]

/-- `run_news_cycle.parse_article_response`: strip whitespace and any code
fence, then try `json.loads`.  Only `JSONDecodeError` is caught (returning
the cleaned raw text with an empty category); a successful parse evaluates
`parsed.get("articleText", "").strip() if "articleText" in parsed else
clean` and the analogous category expression, whose `in`/`.get`/`.strip()`
steps raise uncaught `TypeError`/`AttributeError` (`Except.error`) on
non-iterable tops, non-dict tops reaching `.get`, and non-string field
values.  The category is validated against the allowed labels. -/
def parse_article_response (text : String) : Except Unit (String × String) :=
  let clean := stripCodeFence (stripStr text)
  match jsonLoads clean with
  | none => Except.ok (clean, "")
  | some parsed =>
    match pyContains parsed ("articleText") with
    | Except.error e => Except.error e
    | Except.ok hasArticle =>
      let articleE :=
        if hasArticle then
          match pyGetStrField parsed ("articleText") with
          | Except.error e => Except.error e
          | Except.ok v => Except.ok (stripStr v)
        else Except.ok clean
      match articleE with
      | Except.error e => Except.error e
      | Except.ok article =>
        match pyContains parsed ("category") with
        | Except.error e => Except.error e
        | Except.ok hasCategory =>
          let categoryE :=
            if hasCategory then
              match pyGetStrField parsed ("category") with
              | Except.error e => Except.error e
              | Except.ok v => Except.ok (lowerStr (stripStr v))
            else Except.ok ("")
          match categoryE with
          | Except.error e => Except.error e
          | Except.ok category =>
            Except.ok (article,
              if VALID_CATEGORIES.contains category then category else "")

/-- `run_news_cycle.call_cerebras` driven by an oracle giving the chat
completion content: a transport error raises, empty content raises
`ValueError`, otherwise the content is parsed —
`parse_article_response` may itself raise an uncaught exception, which
propagates to the caller. -/
def call_cerebras (response : Except Unit String) :
    Except Unit (String × String) :=
  match response with
  | Except.error e => Except.error e
  | Except.ok content =>
    let raw := stripStr content
    if raw = "" then Except.error ()
    else parse_article_response raw

/-- `len(text.split())`: Python whitespace word count. -/
def wordCount (s : String) : Nat := (splitWhitespace s).length

/-- The word-count floor of the corrective retry
(`if word_count < 80:` in `generate_news` step 5). -/
def WORD_FLOOR : Nat := 80

/-- Backend-call oracles for one run: the raw completion content (or a
transport error) of the first attempt and of the corrective retry, per
model name. -/
structure TextBackendEnv where
  firstResponse : String → Except Unit String
  retryResponse : String → Except Unit String

/-- One model's turn in the `generate_news` backend loop: call the backend;
when the parsed body's word count is under the 80-word floor, issue exactly
one corrective retry with the same model, accepting the retry's text only
when its word count strictly exceeds the first attempt's (a failed retry
keeps the first attempt).  Returns the final text and the number of
corrective retries issued. -/
def runModelAttempt (env : TextBackendEnv) (modelName : String) :
    Except Unit (String × Nat) :=
  match call_cerebras (env.firstResponse modelName) with
  | Except.error e => Except.error e
  | Except.ok (articleText, _aiCategory) =>
    let wc := wordCount articleText
    if wc < WORD_FLOOR then
      match call_cerebras (env.retryResponse modelName) with
      | Except.error _ => Except.ok (articleText, 1)
      | Except.ok (retryText, _retryCategory) =>
        if wordCount retryText > wc then Except.ok (retryText, 1)
        else Except.ok (articleText, 1)
    else Except.ok (articleText, 0)

/-- The Cerebras model priority list `MODELS` in `generate_news`. -/
def MODELS : List String := [("gpt-oss-120b"), ("llama3.1-8b")]

/-- The article text the loop settles on, the backend that produced it, and
how many corrective retries were issued. -/
structure GenResult where
  articleText : String
  usedModel : String
  retriesIssued : Nat
deriving DecidableEq

/-- The backend priority loop of `generate_news` step 5: try each model in
order; an exception advances to the next model; the first completed attempt
breaks the loop. -/
def generateArticle (env : TextBackendEnv) :
    List String → Except Unit GenResult
  | [] => Except.error ()
  | m :: rest =>
    match runModelAttempt env m with
    | Except.ok (text, retries) =>
      Except.ok { articleText := text, usedModel := m,
                  retriesIssued := retries }
    | Except.error _ => generateArticle env rest

/-- The loop over `MODELS` followed by
`if not article_text: raise RuntimeError(...)`. -/
def generateArticleChecked (env : TextBackendEnv) : Except Unit GenResult :=
  match generateArticle env MODELS with
  | Except.ok r =>
    if r.articleText = "" then Except.error () else Except.ok r
  | Except.error e => Except.error e

/-- `n` whitespace-separated words. -/
def words (n : Nat) : String :=
  String.intercalate (" ") (List.replicate n ("w"))

/-- Unpacked behaviour of one model attempt whose first response is under
the word floor. -/
theorem runModelAttempt_short (env : TextBackendEnv) (modelName a c : String)
    (hc : call_cerebras (env.firstResponse modelName) = Except.ok (a, c))
    (hshort : wordCount a < WORD_FLOOR) :
    runModelAttempt env modelName =
      match call_cerebras (env.retryResponse modelName) with
      | Except.error _ => Except.ok (a, 1)
      | Except.ok (b, _) =>
        if wordCount b > wordCount a then Except.ok (b, 1)
        else Except.ok (a, 1) := by
  simp only [runModelAttempt, hc, if_pos hshort]

/-- The backend oracles of the C6 counterexample: a 120-word first response
and a 200-word retry response. -/
def c6Env : TextBackendEnv :=
  { firstResponse := fun _ => Except.ok (words 120),
    retryResponse := fun _ => Except.ok (words 200) }

set_option maxRecDepth 100000 in
/-- C6 counterexample: with the code's 80-word retry floor, a 120-word first
response (below the claim example's 175-word floor) triggers no corrective
retry: although a 200-word retry response is available, the final body is
the 120-word first attempt with zero retries issued — not the 200-word
body the claim's example requires. -/
theorem text_retry_counterexample :
    wordCount (words 120) = 120 ∧ wordCount (words 200) = 200 ∧
    runModelAttempt c6Env ("gpt-oss-120b") = Except.ok (words 120, 0) := by
  exact ⟨rfl, rfl, rfl⟩

/-- C6 (amended): when a backend's first response completes the parse stage
(no transport error, non-empty, no uncaught parse exception) with a body
whose word count is below the code's 80-word floor, exactly one corrective
retry is issued with the same backend; a retry response that itself
completes the parse stage is accepted if and only if its word count
strictly exceeds the first attempt's (stated as the if-then-else), and a
failed retry — transport error, empty response, or an uncaught parse
exception — keeps the first attempt's text. -/
theorem text_retry_policy (env : TextBackendEnv)
    (modelName raw1 a1 c1 : String)
    (h1 : env.firstResponse modelName = Except.ok raw1)
    (h2 : stripStr raw1 ≠ "")
    (hp1 : parse_article_response (stripStr raw1) = Except.ok (a1, c1))
    (hshort : wordCount a1 < WORD_FLOOR) :
    (∃ finalText, runModelAttempt env modelName
        = Except.ok (finalText, 1)) ∧
    (∀ raw2 a2 c2, env.retryResponse modelName = Except.ok raw2 →
      stripStr raw2 ≠ "" →
      parse_article_response (stripStr raw2) = Except.ok (a2, c2) →
      runModelAttempt env modelName = Except.ok
        ((if wordCount a2 > wordCount a1 then a2 else a1), 1)) ∧
    (call_cerebras (env.retryResponse modelName) = Except.error () →
      runModelAttempt env modelName = Except.ok (a1, 1)) := by
  have hc : call_cerebras (env.firstResponse modelName)
      = Except.ok (a1, c1) := by
    rw [h1]
    simp [call_cerebras, h2, hp1]
  have hmain := runModelAttempt_short env modelName a1 c1 hc hshort
  refine ⟨?_, ?_, ?_⟩
  · rw [hmain]
    rcases hr : call_cerebras (env.retryResponse modelName) with e | p
    · exact ⟨a1, rfl⟩
    · rcases p with ⟨b, c2⟩
      by_cases hw : wordCount b > wordCount a1
      · exact ⟨b, by simp [hw]⟩
      · exact ⟨a1, by simp [hw]⟩
  · intro raw2 a2 c2 hr2 hs2 hp2
    have hcr : call_cerebras (env.retryResponse modelName)
        = Except.ok (a2, c2) := by
      rw [hr2]
      simp [call_cerebras, hs2, hp2]
    rw [hmain, hcr]
    by_cases hw : wordCount a2 > wordCount a1 <;> simp [hw]
  · intro herr
    rw [hmain, herr]

/-- The backend oracles of the C6 witness: a 3-word first response and a
100-word retry response. -/
def c6WitnessEnv : TextBackendEnv :=
  { firstResponse := fun _ => Except.ok (words 3),
    retryResponse := fun _ => Except.ok (words 100) }

set_option maxRecDepth 100000 in
/-- Witness for the amended C6: a 3-word first attempt (under the 80-word
floor) with a 100-word retry available ends in the retry-acceptance
if-then-else with one retry issued. -/
theorem text_retry_policy_witness :
    runModelAttempt c6WitnessEnv ("gpt-oss-120b") = Except.ok
      ((if wordCount (words 100) > wordCount (words 3)
        then words 100 else words 3), 1) :=
  (text_retry_policy c6WitnessEnv ("gpt-oss-120b") (words 3) (words 3) ("")
    rfl (by decide) rfl (by decide)).2.1 (words 100) (words 100) ("") rfl
    (by decide) rfl

/-- A syntactically invalid structured output: 84 words of prose, no JSON. -/
def malformedRaw : String :=
  String.intercalate (" ") (List.replicate 80 ("plain")) ++
    (" not a json object")

/-- The backend oracles of the C7 theorems: the first backend answers with
`malformedRaw`; the retry oracle is irrelevant. -/
def c7Env : TextBackendEnv :=
  { firstResponse := fun _ => Except.ok malformedRaw,
    retryResponse := fun _ => Except.error () }

/-- A syntactically valid JSON response that lacks the required
`articleText` field but carries a valid category. -/
def missingFieldRaw : String := "\x7b\"category\": \"health\"\x7d"

/-- Backend oracles whose first backend answers with `missingFieldRaw` and
whose retry fails. -/
def c7bEnv : TextBackendEnv :=
  { firstResponse := fun _ => Except.ok missingFieldRaw,
    retryResponse := fun _ => Except.error () }

set_option maxRecDepth 100000 in
/-- C7 counterexample: two responses the claim says must advance the
backend do not.  (1) Syntactically invalid JSON is silently repaired to the
cleaned raw text with an empty category and accepted from the first
backend.  (2) Valid JSON missing the required `articleText` field keeps the
cleaned raw text as the body, carries the supplied category, and is
likewise accepted from the first backend (after its one under-floor
corrective retry, which fails and keeps the first attempt). -/
theorem malformed_output_counterexample :
    jsonLoads malformedRaw = none ∧
    parse_article_response malformedRaw = Except.ok (malformedRaw, ("")) ∧
    generateArticleChecked c7Env = Except.ok
      { articleText := malformedRaw, usedModel := ("gpt-oss-120b"),
        retriesIssued := 0 } ∧
    jsonLoads missingFieldRaw
      = some (JsonVal.jobj [(("category"), JsonVal.jstr ("health"))]) ∧
    parse_article_response missingFieldRaw
      = Except.ok (missingFieldRaw, ("health")) ∧
    generateArticleChecked c7bEnv = Except.ok
      { articleText := missingFieldRaw, usedModel := ("gpt-oss-120b"),
        retriesIssued := 1 } := by
  exact ⟨rfl, rfl, rfl, rfl, rfl, rfl⟩

/-- C7 (amended): a backend response that is syntactically invalid JSON is
not treated as a backend failure: `parse_article_response` repairs it
best-effort to the cleaned raw text with an empty category, and — for an
already-trimmed, non-empty response of at least 80 words, so that no
corrective retry fires — the generator loop accepts that text from the
first backend rather than advancing.  Valid JSON missing the `articleText`
key (with its category absent or string-valued) likewise keeps the cleaned
raw text as the body without raising.  The loop advances to the next
backend exactly when the backend call raises: a transport error, an empty
response, or an uncaught parse-stage exception. -/
theorem malformed_output_kept (env : TextBackendEnv) (raw : String)
    (h1 : env.firstResponse ("gpt-oss-120b") = Except.ok raw)
    (hstripped : stripStr raw = raw)
    (h2 : raw ≠ "")
    (hmal : jsonLoads (stripCodeFence raw) = none)
    (hlong : WORD_FLOOR ≤ wordCount (stripCodeFence raw))
    (hne : stripCodeFence raw ≠ "") :
    parse_article_response raw = Except.ok (stripCodeFence raw, ("")) ∧
    generateArticleChecked env = Except.ok
      { articleText := stripCodeFence raw, usedModel := ("gpt-oss-120b"),
        retriesIssued := 0 } ∧
    (∀ (raw2 : String) (fields : List (String × JsonVal)),
      stripStr raw2 = raw2 →
      jsonLoads (stripCodeFence raw2) = some (JsonVal.jobj fields) →
      dictHasKey fields ("articleText") = false →
      (dictHasKey fields ("category") = false ∨
        ∃ s, dictGet fields ("category") = some (JsonVal.jstr s)) →
      ∃ cat, parse_article_response raw2
        = Except.ok (stripCodeFence raw2, cat)) ∧
    (∀ (env2 : TextBackendEnv) (m : String) (rest : List String),
      (call_cerebras (env2.firstResponse m) = Except.error () →
        generateArticle env2 (m :: rest) = generateArticle env2 rest) ∧
      (∀ text cat,
        call_cerebras (env2.firstResponse m) = Except.ok (text, cat) →
        ∃ finalText retries, generateArticle env2 (m :: rest)
          = Except.ok { articleText := finalText, usedModel := m,
                        retriesIssued := retries })) := by
  have hparse : parse_article_response raw
      = Except.ok (stripCodeFence raw, ("")) := by
    simp only [parse_article_response, hstripped, hmal]
  have hcall : call_cerebras (env.firstResponse ("gpt-oss-120b"))
      = Except.ok (stripCodeFence raw, ("")) := by
    rw [h1]
    simp [call_cerebras, hstripped, h2, hparse]
  have hrun : runModelAttempt env ("gpt-oss-120b")
      = Except.ok (stripCodeFence raw, 0) := by
    simp only [runModelAttempt, hcall]
    rw [if_neg (by omega)]
  refine ⟨hparse, ?_, ?_, ?_⟩
  · simp only [generateArticleChecked, MODELS, generateArticle, hrun]
    rw [if_neg hne]
  · intro raw2 fields hstr2 hjson hnoart hcat
    simp only [parse_article_response, hstr2, hjson, pyContains, hnoart,
      Bool.false_eq_true, if_neg, if_false]
    rcases hcat with hkfalse | ⟨s, hget⟩
    · simp [hkfalse]
    · by_cases hk : dictHasKey fields ("category")
      · simp [hk, pyGetStrField, hget]
      · simp [hk]
  · intro env2 m rest
    constructor
    · intro hfail
      have hr2 : runModelAttempt env2 m = Except.error () := by
        simp only [runModelAttempt, hfail]
      simp only [generateArticle, hr2]
    · intro text cat hok
      simp only [generateArticle, runModelAttempt, hok]
      by_cases hw : wordCount text < WORD_FLOOR
      · rw [if_pos hw]
        rcases hr : call_cerebras (env2.retryResponse m) with e | p
        · exact ⟨text, 1, rfl⟩
        · rcases p with ⟨b, c2⟩
          by_cases hw2 : wordCount b > wordCount text
          · exact ⟨b, 1, by simp [hw2]⟩
          · exact ⟨text, 1, by simp [hw2]⟩
      · rw [if_neg hw]
        exact ⟨text, 0, rfl⟩

set_option maxRecDepth 100000 in
/-- Witness for the amended C7: the concrete malformed response is accepted
verbatim from the first backend. -/
theorem malformed_output_kept_witness :
    parse_article_response malformedRaw
        = Except.ok (stripCodeFence malformedRaw, ("")) ∧
    generateArticleChecked c7Env = Except.ok
      { articleText := stripCodeFence malformedRaw,
        usedModel := ("gpt-oss-120b"), retriesIssued := 0 } := by
  have h := malformed_output_kept c7Env malformedRaw rfl rfl (by decide) rfl
    (by decide) (by decide)
  exact ⟨h.1, h.2.1⟩

/-! ## Title similarity (`generate_news.py`) -/

/-- The lower-cased word set of a title (`set(a.lower().split())`). -/
def titleWords (s : String) : Finset String :=
  (splitWhitespace (lowerStr s)).toFinset

/-- `generate_news.title_similarity`: word-set overlap divided by the
smaller set's size; 0 when either set is empty. -/
def title_similarity (a b : String) : ℚ :=
  let wordsA := titleWords a
  let wordsB := titleWords b
  if wordsA = ∅ ∨ wordsB = ∅ then 0
  else ((wordsA ∩ wordsB).card : ℚ) / (min wordsA.card wordsB.card : ℚ)

/-- `generate_news.is_duplicate_title` (default threshold 0.7): true when
the candidate is similar enough to any existing title. -/
def is_duplicate_title (title : String) (existingTitles : List String)
    (threshold : ℚ := 7/10) : Bool :=
  existingTitles.any (fun existing =>
    decide (threshold ≤ title_similarity title existing))

/-- C9: `title_similarity` equals the case-insensitive word-set overlap
divided by the smaller set's size, with empty word sets yielding 0; and
`is_duplicate_title` returns true iff the similarity to at least one
existing title meets or exceeds the 0.7 threshold — in particular a pair
with empty word overlap has similarity 0 and is never flagged. -/
theorem title_similarity_spec :
    (∀ a b : String, titleWords a ≠ ∅ → titleWords b ≠ ∅ →
      title_similarity a b
        = ((titleWords a ∩ titleWords b).card : ℚ)
            / (min (titleWords a).card (titleWords b).card : ℚ)) ∧
    (∀ a b : String, titleWords a = ∅ ∨ titleWords b = ∅ →
      title_similarity a b = 0) ∧
    (∀ (t : String) (existing : List String),
      is_duplicate_title t existing = true ↔
        ∃ e ∈ existing, 7/10 ≤ title_similarity t e) ∧
    (∀ a b : String, titleWords a ∩ titleWords b = ∅ →
      title_similarity a b = 0 ∧ is_duplicate_title a [b] = false) := by
  have hformula : ∀ a b : String, titleWords a ≠ ∅ → titleWords b ≠ ∅ →
      title_similarity a b
        = ((titleWords a ∩ titleWords b).card : ℚ)
            / (min (titleWords a).card (titleWords b).card : ℚ) := by
    intro a b ha hb
    simp only [title_similarity]
    rw [if_neg (not_or.mpr ⟨ha, hb⟩)]
  have hzero : ∀ a b : String, titleWords a = ∅ ∨ titleWords b = ∅ →
      title_similarity a b = 0 := by
    intro a b h
    simp only [title_similarity]
    rw [if_pos h]
  have hdisjoint : ∀ a b : String, titleWords a ∩ titleWords b = ∅ →
      title_similarity a b = 0 := by
    intro a b hint
    by_cases h : titleWords a = ∅ ∨ titleWords b = ∅
    · exact hzero a b h
    · push_neg at h
      rw [hformula a b h.1 h.2, hint]
      simp
  refine ⟨hformula, hzero, ?_, ?_⟩
  · intro t existing
    simp [is_duplicate_title, List.any_eq_true]
  · intro a b hint
    have hsim := hdisjoint a b hint
    have hnotge : ¬((7 : ℚ)/10 ≤ title_similarity a b) := by
      rw [hsim]
      norm_num
    exact ⟨hsim, by simp [is_duplicate_title, hnotge]⟩

/-- Witness for C9: a concrete near-duplicate pair (100% overlap of the
smaller set) and a concrete disjoint pair. -/
theorem title_similarity_spec_witness :
    (title_similarity ("Open Source AI") ("open source ai tools")
        = ((titleWords ("Open Source AI")
              ∩ titleWords ("open source ai tools")).card : ℚ)
            / (min (titleWords ("Open Source AI")).card
                (titleWords ("open source ai tools")).card : ℚ)) ∧
    (is_duplicate_title ("Open Source AI") [("open source ai tools")] = true ↔
      ∃ e ∈ [("open source ai tools")],
        7/10 ≤ title_similarity ("Open Source AI") e) ∧
    (title_similarity ("cats") ("dogs") = 0 ∧
      is_duplicate_title ("cats") [("dogs")] = false) :=
  ⟨title_similarity_spec.1 ("Open Source AI") ("open source ai tools")
      (by decide) (by decide),
    title_similarity_spec.2.2.1 ("Open Source AI") [("open source ai tools")],
    title_similarity_spec.2.2.2 ("cats") ("dogs") (by decide)⟩

/-! ## The image-prompt block of `generate_news` step 6 (`run_news_cycle.py`) -/

/-- The fixed fallback image-prompt string installed by the except-handler
of `generate_news` step 6. -/
def FALLBACK_IMAGE_PROMPT : String :=
  "Editorial photograph of modern technology workspace, golden-hour light, minimalist desk with monitors, shallow depth-of-field, Canon EOS R5, natural color palette, cinematic 16:9"

/-- A read of a Python function-local variable: `none` models an unbound
local, whose read raises `UnboundLocalError`. -/
def readLocal (v : Option String) : Except Unit String :=
  match v with
  | some s => Except.ok s
  | none => Except.error ()

/-- `generate_news` step 6, the image-prompt block: the f-string of the LLM
user message reads the local `title` (`{title or 'Technology news'}`)
during argument construction, before the API request is sent; the LLM's
answer is stripped and unquoted; any exception anywhere in the block makes
the except-handler install the fixed fallback prompt.  (The message text is
abridged here; only the `title` read and the article slice matter.)
Returns the resulting prompt and the number of LLM calls issued. -/
def imagePromptStep (titleLocal : Option String) (articleText : String)
    (llm : String → Except Unit String) : String × Nat :=
  match readLocal titleLocal with
  | Except.error _ => (FALLBACK_IMAGE_PROMPT, 0)
  | Except.ok t =>
    let userContent :=
      ("Write an 80-120 word photorealistic editorial photo description that matches this news article. Title: ")
        ++ (if t = "" then ("Technology news") else t)
        ++ (" Article: ") ++ String.mk (articleText.data.take 500)
    match llm userContent with
    | Except.error _ => (FALLBACK_IMAGE_PROMPT, 1)
    | Except.ok resp =>
      let p := stripStr resp
      (if startsWithStr p ("\"") && endsWithStr p ("\"") then
          String.mk ((p.data.drop 1).dropLast)
        else p, 1)

/-- In `generate_news`, the first assignment to the local `title` (step 7,
line 887) comes after the image-prompt block (step 6, lines 840-884);
Python's function-scope rule therefore makes `title` an unbound local
throughout step 6. -/
def titleLocalAtImageStep : Option String := none

/-- The image-prompt computation as `generate_news` actually executes it:
step 6 with the unbound `title` local. -/
def generate_news_image_prompt (articleText : String)
    (llm : String → Except Unit String) : String × Nat :=
  imagePromptStep titleLocalAtImageStep articleText llm

/-- C10: the LLM image-prompt branch is unreachable — evaluating the
message f-string reads the local `title` before its first assignment,
raising `UnboundLocalError` before the LLM request is issued, and the
except-handler installs the fixed fallback description.  For every article
text and every LLM behaviour, the image prompt equals the fallback string
and zero LLM calls are made. -/
theorem image_prompt_always_fallback (articleText : String)
    (llm : String → Except Unit String) :
    generate_news_image_prompt articleText llm
      = (FALLBACK_IMAGE_PROMPT, 0) := rfl

end XelStudio
